import Mathlib

/-!
Verification of the compliance_rag retrieval-augmented QA pipeline.

Shallow embedding of the repository's core pipeline:
- `src/rag.py`: `format_context`, `contextualize_question`, `rag_query`
- `src/history.py`: `load_history`, `save_message` over a relational row list
- `src/retriever.py`: the `TOP_K`/`TOP_N` configuration of the rerank pipeline
- `src/ingest.py`: `clean_documents`

External collaborators (the Groq chat models, the Qdrant retriever with the
Cohere reranker, and the Postgres connection) are modelled as abstract
functions collected in an `Env` record; fallible calls return `Except`.
`rag_query` threads the history table (a list of rows) explicitly and also
emits a trace of the external calls it performs, so that claims about "no
model invocation", "retrieval runs on the rewritten question" and "no turns
appended on failure" are statable.
-/

namespace ComplianceRag

/-- Message roles, after langchain's `SystemMessage` / `HumanMessage` /
`AIMessage` used in `src/rag.py` and `src/history.py`. -/
inductive Role where
  | system
  | human
  | ai
deriving DecidableEq, Repr

/-- A chat message: role plus content string. -/
structure Message where
  role : Role
  content : String
deriving DecidableEq, Repr

/-- A retrieved chunk, after `langchain_core.documents.Document` as consumed
by `format_context` in `src/rag.py`: the page content plus the three metadata
entries the code reads (`source`, `page`, `law_category`), each optional
because `metadata.get` supplies a default when the key is absent. -/
structure Document where
  page_content : String
  source : Option String
  page : Option String
  law_category : Option String
deriving DecidableEq, Repr

/-- `CitedSource` from `src/schema.py`. -/
structure CitedSource where
  document_name : String
  page_number : Option Int
  «section» : Option String
  law_category : Option String
  contains_table : Option Bool
deriving DecidableEq, Repr

/-- `ComplianceAnswer` from `src/schema.py`. -/
structure ComplianceAnswer where
  answer : String
  found_in_docs : Bool
  sources : List CitedSource
  confidence : String
deriving DecidableEq, Repr

/-- `CONTEXTUALIZE_PROMPT` from `src/rag.py` (the Python backslash line
continuations join the lines with no newline). -/
def CONTEXTUALIZE_PROMPT : String :=
  "Given the chat history and the latest user question, rewrite the question as a fully standalone question that can be understood without the chat history. Do NOT answer it, only rewrite it. If it is already standalone, return it as is."

/-- `SYSTEM_PROMPT` from `src/rag.py`. -/
def SYSTEM_PROMPT : String :=
  "You are a precise compliance assistant for Nigerian regulatory and legal documents. Answer using ONLY the provided context from the compliance documents. Always cite the source document name, page number, and section if available. Sections prefixed with CONTAINED_TABLE_DATA contain structured table information — pay close attention to these when answering questions about figures, thresholds, or rates. Set found_in_docs to False and explain that the answer was not found if the context does not support an answer. Set confidence based on how clearly the context supports the answer: high, medium, or low. Never make up or infer information beyond what is in the context."

/-- One numbered entry of the context block built by `format_context` in
`src/rag.py`: the metadata header (with the `metadata.get` defaults
`"Unknown"`, `"?"`, `"General Compliance"`) followed by the chunk text. -/
def format_entry (i : Nat) (d : Document) : String :=
  "[" ++ toString i ++ "] Source: " ++ d.source.getD "Unknown" ++
    " | Page: " ++ d.page.getD "?" ++
    " | Category: " ++ d.law_category.getD "General Compliance" ++
    "\n" ++ d.page_content

/-- The `parts` list built by the `for i, d in enumerate(docs, 1)` loop of
`format_context`, indices starting at `i`. -/
def format_parts : Nat → List Document → List String
  | _, [] => []
  | i, d :: ds => format_entry i d :: format_parts (i + 1) ds

/-- `format_context` from `src/rag.py`: number the chunks from 1 and join the
entries with the fixed `"\n\n---\n\n"` delimiter. -/
def format_context (docs : List Document) : String :=
  String.intercalate "\n\n---\n\n" (format_parts 1 docs)

lemma format_parts_length (i : Nat) (ds : List Document) :
    (format_parts i ds).length = ds.length := by
  induction ds generalizing i with
  | nil => rfl
  | cons d tl ih => simp [format_parts, ih]

lemma format_parts_getElem? (i : Nat) (ds : List Document) (j : Nat) :
    (format_parts i ds)[j]? = (ds[j]?).map (fun d => format_entry (i + j) d) := by
  induction ds generalizing i j with
  | nil => simp [format_parts]
  | cons d tl ih =>
      cases j with
      | zero => simp [format_parts]
      | succ j =>
          simp only [format_parts, List.getElem?_cons_succ, ih (i + 1) j]
          have : i + 1 + j = i + (j + 1) := by omega
          rw [this]

/-- One row of the `messages` table created by `init_db` in `src/history.py`.
The serial `id` column orders rows by insertion; the list position plays that
role here, so the table is the list in insertion order. -/
structure Row where
  session : String
  role : String
  content : String
deriving DecidableEq, Repr

/-- The trace of external calls a query performs: the history `SELECT`, each
chat-model invocation, the retriever invocation, the structured-model
invocation, and each attempted history `INSERT`. -/
inductive Event where
  | dbQuery (session : String)
  | llmCall (msgs : List Message)
  | retrieveCall (query : String)
  | structuredCall (msgs : List Message)
  | dbInsertRow (r : Row)
deriving DecidableEq, Repr

/-- Whether an event is a history `INSERT` attempt. -/
def Event.isInsert : Event → Bool
  | .dbInsertRow _ => true
  | _ => false

/-- The external collaborators of one query, as abstract functions:
`loadFails` / `insertFails` inject connection errors into the Postgres calls
made by `load_history` / `save_message`; `llm` is the plain chat model used by
`contextualize_question`; `retrieve` is `retriever.invoke` (Qdrant hybrid
search followed by the Cohere reranker); `structured` is the
structured-output chat model. An `Except.error` models a raised exception. -/
structure Env where
  loadFails : String → Bool
  insertFails : Row → Bool
  llm : List Message → Except String String
  retrieve : String → Except String (List Document)
  structured : List Message → Except String ComplianceAnswer

/-- The row-to-message conversion done by the loop in `load_history`:
`"human"` rows become human messages, every other role becomes an AI
message. -/
def rows_to_messages (rows : List Row) : List Message :=
  rows.map (fun r => if r.role = "human" then ⟨Role.human, r.content⟩ else ⟨Role.ai, r.content⟩)

/-- The `SELECT role, content FROM messages WHERE session = %s ORDER BY id`
issued by `load_history`, with an injected connection failure. -/
def db_query (env : Env) (db : List Row) (session_id : String) : Except String (List Row) :=
  if env.loadFails session_id then Except.error "connection error"
  else Except.ok (db.filter (fun r => r.session = session_id))

/-- `load_history` from `src/history.py`: run the `SELECT` and convert rows to
messages; its own `try/except` turns any error into an empty history. -/
def load_history (env : Env) (db : List Row) (session_id : String) : List Message :=
  match db_query env db session_id with
  | .error _ => []
  | .ok rows => rows_to_messages rows

/-- The `INSERT INTO messages (session, role, content)` issued by
`save_message`, with an injected connection failure; on success the new row is
appended (its serial id is the next one). -/
def db_insert (env : Env) (db : List Row) (r : Row) : Except String (List Row) :=
  if env.insertFails r then Except.error "insert error"
  else Except.ok (db ++ [r])

/-- `save_message` from `src/history.py`: attempt the `INSERT`; its own
`try/except` swallows any error (the commit is never reached, so the table is
unchanged) and the function returns normally either way. -/
def save_message (env : Env) (db : List Row) (session_id role content : String) : List Row :=
  match db_insert env db ⟨session_id, role, content⟩ with
  | .error _ => db
  | .ok db2 => db2

/-- `contextualize_question` from `src/rag.py`: with empty history return the
question unchanged without touching the model; otherwise invoke the plain
model on `[system contextualize-prompt] ++ history ++ [human question]` and
return its raw content. The second component traces the model invocations
performed. -/
def contextualize_question (question : String) (history : List Message)
    (llm : List Message → Except String String) : Except String String × List Event :=
  if history.isEmpty then (Except.ok question, [])
  else
    let messages := Message.mk Role.system CONTEXTUALIZE_PROMPT ::
      (history ++ [Message.mk Role.human question])
    (llm messages, [Event.llmCall messages])

/-- `rag_query` from `src/rag.py`: load history, contextualize, retrieve on
the rewritten question, build the generation prompt from the assembled context
and the original question, invoke the structured model, then save the two
turns. The surrounding `try/except` turns any exception raised by the model or
retriever calls into a `none` result with the history table untouched
(`load_history` and `save_message` swallow their own DB errors internally, so
they never raise into this handler). Returns the result, the updated table,
and the trace of external calls. -/
def rag_query (env : Env) (question session_id : String) (db : List Row) :
    Option ComplianceAnswer × List Row × List Event :=
  let history := load_history env db session_id
  let c := contextualize_question question history env.llm
  match c.1 with
  | .error _ => (none, db, Event.dbQuery session_id :: c.2)
  | .ok standalone_question =>
    match env.retrieve standalone_question with
    | .error _ =>
        (none, db, Event.dbQuery session_id :: c.2 ++ [Event.retrieveCall standalone_question])
    | .ok retrieved_docs =>
      let context := format_context retrieved_docs
      let messages := Message.mk Role.system SYSTEM_PROMPT ::
        (history ++ [Message.mk Role.human ("Context:\n" ++ context ++ "\n\nQuestion: " ++ question)])
      match env.structured messages with
      | .error _ =>
          (none, db, Event.dbQuery session_id :: c.2 ++
            [Event.retrieveCall standalone_question, Event.structuredCall messages])
      | .ok result =>
        let db1 := save_message env db session_id "human" question
        let db2 := save_message env db1 session_id "ai" result.answer
        (some result, db2, Event.dbQuery session_id :: c.2 ++
          [Event.retrieveCall standalone_question, Event.structuredCall messages,
           Event.dbInsertRow ⟨session_id, "human", question⟩,
           Event.dbInsertRow ⟨session_id, "ai", result.answer⟩])

/-- `TOP_K` from `src/retriever.py`: chunks retrieved from Qdrant before
reranking. -/
def TOP_K : Nat := 6

/-- `TOP_N` from `src/retriever.py`: chunks kept after Cohere reranking. -/
def TOP_N : Nat := 3

/-- Modelled from the spec: the rerank step of the retriever pipeline. The
code that performs it (`CohereRerank` inside `ContextualCompressionRetriever`)
is external library code; `build_retriever` in `src/retriever.py` only
configures it with `top_n`. Per the spec, the reranker scores the candidates
(it may reject some, returning fewer) and the pipeline keeps the top `top_n`
by relevance score, in descending score order. `scored` is the reranker's
scored output for the surviving candidates. -/
def rerank_keep_top (top_n : Nat) (scored : List (Document × Int)) : List (Document × Int) :=
  (scored.mergeSort (fun a b => b.2 ≤ a.2)).take top_n

/-- Modelled from the spec: the chunk sequence the retriever pipeline returns
for one query, given the reranker's scored candidates — the top `TOP_N`
survivors with their metadata intact. -/
def retrieve_result (scored : List (Document × Int)) : List Document :=
  (rerank_keep_top TOP_N scored).map Prod.fst

/-- The whitespace-cleaning expression in the loop body of `clean_documents`
in `src/ingest.py`: `\r\n?` to `\n`, runs of three or more newlines to two,
runs of spaces/tabs to one space, then strip. (The loop never runs — see
`clean_documents` — but the body is embedded faithfully.) -/
def clean_text (s : String) : String :=
  (collapse_spaces false (collapse_blank_lines 0 (normalize_newlines s.data))).asString.trim
where
  normalize_newlines : List Char → List Char
    | [] => []
    | '\r' :: '\n' :: rest => '\n' :: normalize_newlines rest
    | '\r' :: rest => '\n' :: normalize_newlines rest
    | c :: rest => c :: normalize_newlines rest
  collapse_blank_lines (run : Nat) : List Char → List Char
    | [] => []
    | c :: rest =>
        if c = '\n' then
          (if run ≥ 2 then [] else ['\n']) ++ collapse_blank_lines (run + 1) rest
        else c :: collapse_blank_lines 0 rest
  collapse_spaces (inRun : Bool) : List Char → List Char
    | [] => []
    | c :: rest =>
        if c = ' ' ∨ c = '\t' then
          (if inRun then [] else [' ']) ++ collapse_spaces true rest
        else c :: collapse_spaces false rest

/-- `clean_documents` from `src/ingest.py`, embedded as written: the first
statement `docs = []` rebinds the parameter to the empty list before the
`for doc in docs` loop, so the loop iterates over the empty list and the
accumulated (still empty) list is returned. -/
def clean_documents (docs0 : List Document) : List Document :=
  let docs : List Document := []
  docs.foldl
    (fun acc doc =>
      let cleaned_content := clean_text doc.page_content
      if cleaned_content.isEmpty then acc
      else acc ++ [{ doc with page_content := cleaned_content }])
    docs

/-! ## Shared helper definitions and lemmas -/

/-- A contextualize step never records a history `INSERT`: its trace is empty
or a single model call. -/
lemma contextualize_events_no_insert (q : String) (h : List Message)
    (llm : List Message → Except String String) :
    (contextualize_question q h llm).2.filter Event.isInsert = [] := by
  cases h <;> simp [contextualize_question, Event.isInsert]

/-- A canonical "nothing found" structured answer, used to instantiate the
abstract structured model in witnesses. -/
def answer_not_found : ComplianceAnswer :=
  { answer := "The answer was not found in the provided documents."
    found_in_docs := false
    sources := []
    confidence := "low" }

/-- An environment where every external service succeeds. -/
def trivial_env : Env where
  loadFails _ := false
  insertFails _ := false
  llm _ := Except.ok "standalone"
  retrieve _ := Except.ok []
  structured _ := Except.ok answer_not_found

/-- An environment where the history `SELECT` raises a connection error but
every other service succeeds. -/
def load_error_env : Env where
  loadFails _ := true
  insertFails _ := false
  llm _ := Except.ok "standalone"
  retrieve _ := Except.ok []
  structured _ := Except.ok ⟨"ans", true, [], "high"⟩

/-- An environment where the reranker connection inside the retriever raises
but every other service succeeds. -/
def rerank_error_env : Env where
  loadFails _ := false
  insertFails _ := false
  llm _ := Except.ok "standalone"
  retrieve _ := Except.error "cohere connection error"
  structured _ := Except.ok ⟨"ans", true, [], "high"⟩

/-- An environment where the structured generation call raises but every
other service succeeds. -/
def generation_error_env : Env where
  loadFails _ := false
  insertFails _ := false
  llm _ := Except.ok "standalone"
  retrieve _ := Except.ok []
  structured _ := Except.error "schema validation failure"

/-- An environment where every history `INSERT` raises but every other
service succeeds. -/
def insert_error_env : Env where
  loadFails _ := false
  insertFails _ := true
  llm _ := Except.ok "standalone"
  retrieve _ := Except.ok []
  structured _ := Except.ok answer_not_found

/-- Two concrete chunks used as reranker candidates in witnesses. -/
def docA : Document :=
  { page_content := "VAT is charged at 7.5 percent."
    source := some "finance_act.pdf"
    page := some "12"
    law_category := some "Taxation" }

/-- Second concrete chunk for witnesses. -/
def docB : Document :=
  { page_content := "Exported goods are zero-rated."
    source := some "finance_act.pdf"
    page := some "14"
    law_category := some "Taxation" }

/-! ## Claims -/

/-- C10: for every input list of documents, `clean_documents` returns the
empty list — the local accumulator `docs = []` shadows the input parameter
before the `for doc in docs` loop, so no input document is ever cleaned or
returned. -/
theorem clean_documents_always_empty (docs : List Document) :
    clean_documents docs = [] := rfl

/-- C2: `contextualize_question` with an empty history returns the question
unchanged and performs no model invocation (its trace of model calls is
empty); it performs exactly one model call when the history is non-empty. -/
theorem contextualize_question_empty_history (q : String)
    (llm : List Message → Except String String) :
    contextualize_question q [] llm = (Except.ok q, []) ∧
    ∀ h : List Message,
      (contextualize_question q h llm).2.length = if h.isEmpty then 0 else 1 := by
  constructor
  · rfl
  · intro h
    cases h <;> simp [contextualize_question]

/-- C4: `format_context` produces the fixed-delimiter join of exactly one
indexed entry per chunk, in input order: the `j`-th entry (numbered `j + 1`)
carries the `j`-th chunk's source, page and category exactly once, followed by
the chunk's raw text. -/
theorem format_context_structure (docs : List Document) :
    format_context docs = String.intercalate "\n\n---\n\n" (format_parts 1 docs) ∧
    (format_parts 1 docs).length = docs.length ∧
    ∀ j : Nat, (format_parts 1 docs)[j]? = (docs[j]?).map (fun d =>
      "[" ++ toString (j + 1) ++ "] Source: " ++ d.source.getD "Unknown" ++
        " | Page: " ++ d.page.getD "?" ++
        " | Category: " ++ d.law_category.getD "General Compliance" ++
        "\n" ++ d.page_content) := by
  refine ⟨rfl, format_parts_length 1 docs, fun j => ?_⟩
  rw [format_parts_getElem?]
  have h1 : 1 + j = j + 1 := Nat.add_comm 1 j
  rw [h1]
  rfl

/-- C7: a turn appended via `save_message` with role `"human"` or `"ai"` and
then loaded via `load_history` for the same session appears at the end of the
loaded sequence (append order), with its role kind and content preserved
exactly. -/
theorem save_then_load_roundtrip (env : Env) (db : List Row) (s role c : String)
    (hrole : role = "human" ∨ role = "ai")
    (hload : env.loadFails s = false)
    (hins : env.insertFails ⟨s, role, c⟩ = false) :
    load_history env (save_message env db s role c) s =
      load_history env db s ++
        [if role = "human" then Message.mk Role.human c else Message.mk Role.ai c] := by
  simp [load_history, save_message, db_insert, db_query, hload, hins,
    rows_to_messages, List.filter_append]

/-- Witness for C7 at a concrete human turn. -/
theorem save_then_load_roundtrip_witness :
    load_history trivial_env (save_message trivial_env [] "s" "human" "hello") "s" =
      load_history trivial_env [] "s" ++
        [if "human" = "human" then Message.mk Role.human "hello"
         else Message.mk Role.ai "hello"] :=
  save_then_load_roundtrip trivial_env [] "s" "human" "hello" (Or.inl rfl) rfl rfl

/-- C1: the retriever pipeline keeps at most `TOP_N` (= 3) results, each one
of the candidates supplied to the reranker, ordered by descending rerank
relevance score. -/
theorem retrieve_result_contract (cands : List Document)
    (scored : List (Document × Int))
    (hsub : ∀ p ∈ scored, p.1 ∈ cands) :
    (retrieve_result scored).length ≤ TOP_N ∧
    (∀ d ∈ retrieve_result scored, d ∈ cands) ∧
    retrieve_result scored = (rerank_keep_top TOP_N scored).map Prod.fst ∧
    (rerank_keep_top TOP_N scored).Pairwise (fun a b => b.2 ≤ a.2) := by
  refine ⟨?_, ?_, rfl, ?_⟩
  · simp only [retrieve_result, rerank_keep_top, List.length_map, List.length_take]
    exact min_le_left _ _
  · intro d hd
    simp only [retrieve_result, List.mem_map] at hd
    obtain ⟨p, hp, rfl⟩ := hd
    have hp2 : p ∈ scored.mergeSort (fun a b => b.2 ≤ a.2) :=
      (List.take_sublist _ _).mem hp
    exact hsub p (List.mem_mergeSort.mp hp2)
  · have hsorted : (scored.mergeSort (fun a b => b.2 ≤ a.2)).Pairwise
        (fun a b => (decide (b.2 ≤ a.2)) = true) := by
      apply List.sorted_mergeSort
      · intro a b c hab hbc
        simp only [decide_eq_true_eq] at *
        exact le_trans hbc hab
      · intro a b
        simp only [Bool.or_eq_true, decide_eq_true_eq]
        exact le_total b.2 a.2
    have := hsorted.sublist (List.take_sublist TOP_N _)
    exact this.imp (fun h => by simpa using h)

/-- Witness for C1 on two concrete scored candidates. -/
theorem retrieve_result_contract_witness :
    (retrieve_result [(docA, 1), (docB, 5)]).length ≤ TOP_N ∧
    (∀ d ∈ retrieve_result [(docA, 1), (docB, 5)], d ∈ [docA, docB]) ∧
    retrieve_result [(docA, 1), (docB, 5)] =
      (rerank_keep_top TOP_N [(docA, 1), (docB, 5)]).map Prod.fst ∧
    (rerank_keep_top TOP_N [(docA, 1), (docB, 5)]).Pairwise (fun a b => b.2 ≤ a.2) :=
  retrieve_result_contract [docA, docB] [(docA, 1), (docB, 5)] (by decide)

/-- C3: in a successful run of `rag_query`, the retriever is invoked on the
contextualized (rewritten) question `sq`, while the user turn handed to the
structured answer model combines the assembled context with the original,
non-rewritten question `q`; the full result, table update and call trace are
determined accordingly. -/
theorem rag_query_uses_rewritten_question (env : Env) (q sid : String) (db : List Row)
    (sq : String) (docs : List Document) (a : ComplianceAnswer)
    (hc : (contextualize_question q (load_history env db sid) env.llm).1 = Except.ok sq)
    (hr : env.retrieve sq = Except.ok docs)
    (hs : env.structured (Message.mk Role.system SYSTEM_PROMPT ::
        (load_history env db sid ++
         [Message.mk Role.human ("Context:\n" ++ format_context docs ++ "\n\nQuestion: " ++ q)]))
      = Except.ok a) :
    rag_query env q sid db =
      (some a,
       save_message env (save_message env db sid "human" q) sid "ai" a.answer,
       Event.dbQuery sid :: (contextualize_question q (load_history env db sid) env.llm).2 ++
         [Event.retrieveCall sq,
          Event.structuredCall (Message.mk Role.system SYSTEM_PROMPT ::
            (load_history env db sid ++
             [Message.mk Role.human
               ("Context:\n" ++ format_context docs ++ "\n\nQuestion: " ++ q)])),
          Event.dbInsertRow ⟨sid, "human", q⟩,
          Event.dbInsertRow ⟨sid, "ai", a.answer⟩]) := by
  simp only [rag_query, hc, hr, hs]

/-- Witness for C3: a first-turn query (empty history, so the rewritten
question is the question itself) against concrete collaborators. -/
theorem rag_query_uses_rewritten_question_witness :
    rag_query trivial_env "What is the VAT rate?" "s0" [] =
      (some answer_not_found,
       save_message trivial_env (save_message trivial_env [] "s0" "human" "What is the VAT rate?")
         "s0" "ai" answer_not_found.answer,
       Event.dbQuery "s0" ::
         (contextualize_question "What is the VAT rate?"
           (load_history trivial_env [] "s0") trivial_env.llm).2 ++
         [Event.retrieveCall "What is the VAT rate?",
          Event.structuredCall (Message.mk Role.system SYSTEM_PROMPT ::
            (load_history trivial_env [] "s0" ++
             [Message.mk Role.human
               ("Context:\n" ++ format_context [] ++ "\n\nQuestion: " ++ "What is the VAT rate?")])),
          Event.dbInsertRow ⟨"s0", "human", "What is the VAT rate?"⟩,
          Event.dbInsertRow ⟨"s0", "ai", answer_not_found.answer⟩]) :=
  rag_query_uses_rewritten_question trivial_env "What is the VAT rate?" "s0" []
    "What is the VAT rate?" [] answer_not_found rfl rfl rfl

/-- The documented contract of the structured generator (`SYSTEM_PROMPT`
instructs: set `found_in_docs` to `False` when the context does not support an
answer): on a prompt whose context block is empty, any answer it returns has
`found_in_docs = false`. Modelled from the spec; the generation model is an
external collaborator. -/
def grounded_generator (g : List Message → Except String ComplianceAnswer) : Prop :=
  ∀ (history : List Message) (q : String) (a : ComplianceAnswer),
    g (Message.mk Role.system SYSTEM_PROMPT ::
        (history ++
         [Message.mk Role.human ("Context:\n" ++ format_context [] ++ "\n\nQuestion: " ++ q)]))
      = Except.ok a →
    a.found_in_docs = false

/-- C5: if the reranker returns no candidates, the retriever pipeline returns
the empty sequence, the assembled context is the empty string, and `rag_query`
completes normally (returns `some` answer, no exception path); by the
generator's grounding contract that answer has `found_in_docs = false`. -/
theorem rag_query_empty_rerank (env : Env) (q sid : String) (db : List Row)
    (sq : String) (a : ComplianceAnswer)
    (hgen : grounded_generator env.structured)
    (hc : (contextualize_question q (load_history env db sid) env.llm).1 = Except.ok sq)
    (hr : env.retrieve sq = Except.ok [])
    (hs : env.structured (Message.mk Role.system SYSTEM_PROMPT ::
        (load_history env db sid ++
         [Message.mk Role.human ("Context:\n" ++ format_context [] ++ "\n\nQuestion: " ++ q)]))
      = Except.ok a) :
    retrieve_result [] = [] ∧ format_context [] = "" ∧
    (rag_query env q sid db).1 = some a ∧ a.found_in_docs = false := by
  refine ⟨?_, rfl, ?_, hgen _ _ _ hs⟩
  · simp [retrieve_result, rerank_keep_top, List.mergeSort_nil]
  · simp only [rag_query, hc, hr, hs]

/-- Witness for C5 with a generator that always reports nothing found. -/
theorem rag_query_empty_rerank_witness :
    retrieve_result [] = [] ∧ format_context [] = "" ∧
    (rag_query trivial_env "q0" "s0" []).1 = some answer_not_found ∧
    answer_not_found.found_in_docs = false :=
  rag_query_empty_rerank trivial_env "q0" "s0" [] "q0" answer_not_found
    (fun _ _ a h => by cases h; rfl) rfl rfl rfl

/-- Counterexample to C6 as stated: the history `SELECT` (an external call)
raises a connection error during the query and before the structured answer is
produced, yet `rag_query` does not return a failure signal — it returns the
structured answer and appends both turns to the table, because `load_history`
swallows its own error and yields an empty history. -/
theorem rag_query_load_error_still_saves :
    load_error_env.loadFails "s0" = true ∧
    (rag_query load_error_env "q0" "s0" []).1 = some ⟨"ans", true, [], "high"⟩ ∧
    (rag_query load_error_env "q0" "s0" []).2.1 =
      [⟨"s0", "human", "q0"⟩, ⟨"s0", "ai", "ans"⟩] :=
  ⟨rfl, rfl, rfl⟩

/-- C6 (amended): if one of the external calls whose exception reaches
`rag_query`'s handler — the contextualize model call, the retriever/reranker
call, or the structured generation call — raises, then `rag_query` returns
`none`, the history table is returned unmodified and no `INSERT` is attempted;
in particular a reranker connectivity error during retrieval triggers this.
(A history-load error is swallowed inside `load_history` and does not.) -/
theorem rag_query_midquery_error_no_saves (env : Env) (q sid : String) (db : List Row) :
    ((rag_query env q sid db).1 = none →
      (rag_query env q sid db).2.1 = db ∧
      (rag_query env q sid db).2.2.filter Event.isInsert = []) ∧
    (∀ sq e, (contextualize_question q (load_history env db sid) env.llm).1 = Except.ok sq →
      env.retrieve sq = Except.error e → (rag_query env q sid db).1 = none) := by
  constructor
  · intro hnone
    rcases h1 : (contextualize_question q (load_history env db sid) env.llm).1 with e | sq
    · constructor
      · simp only [rag_query, h1]
      · simp [rag_query, h1, Event.isInsert, contextualize_events_no_insert]
    · rcases h2 : env.retrieve sq with e2 | docs
      · constructor
        · simp only [rag_query, h1, h2]
        · simp [rag_query, h1, h2, Event.isInsert, contextualize_events_no_insert]
      · rcases h3 : env.structured (Message.mk Role.system SYSTEM_PROMPT ::
            (load_history env db sid ++
             [Message.mk Role.human
               ("Context:\n" ++ format_context docs ++ "\n\nQuestion: " ++ q)]))
          with e3 | a
        · constructor
          · simp only [rag_query, h1, h2, h3]
          · simp [rag_query, h1, h2, h3, Event.isInsert, contextualize_events_no_insert]
        · exfalso
          simp only [rag_query, h1, h2, h3] at hnone
          exact Option.noConfusion hnone
  · intro sq e hc hr
    simp only [rag_query, hc, hr]

/-- Witness for (amended) C6: a reranker connectivity error on a concrete
query yields `none`, an unchanged table and no attempted inserts. -/
theorem rag_query_midquery_error_no_saves_witness :
    (rag_query rerank_error_env "q0" "s0" []).1 = none ∧
    (rag_query rerank_error_env "q0" "s0" []).2.1 = ([] : List Row) ∧
    (rag_query rerank_error_env "q0" "s0" []).2.2.filter Event.isInsert = [] := by
  have h := rag_query_midquery_error_no_saves rerank_error_env "q0" "s0" []
  have hnone := h.2 "q0" "cohere connection error" rfl rfl
  exact ⟨hnone, (h.1 hnone).1, (h.1 hnone).2⟩

/-- C8: once the structured answer is produced, the two history-save calls
cannot abort the query — `save_message` swallows insert failures — so
`rag_query` returns the `ComplianceAnswer` regardless of how the inserts fare
(the statement places no condition on `env.insertFails`). -/
theorem rag_query_answer_despite_save_failure (env : Env) (q sid : String) (db : List Row)
    (sq : String) (docs : List Document) (a : ComplianceAnswer)
    (hc : (contextualize_question q (load_history env db sid) env.llm).1 = Except.ok sq)
    (hr : env.retrieve sq = Except.ok docs)
    (hs : env.structured (Message.mk Role.system SYSTEM_PROMPT ::
        (load_history env db sid ++
         [Message.mk Role.human ("Context:\n" ++ format_context docs ++ "\n\nQuestion: " ++ q)]))
      = Except.ok a) :
    (rag_query env q sid db).1 = some a := by
  simp only [rag_query, hc, hr, hs]

/-- Witness for C8: both inserts fail, the answer is still returned. -/
theorem rag_query_answer_despite_save_failure_witness :
    insert_error_env.insertFails ⟨"s0", "human", "q0"⟩ = true ∧
    (rag_query insert_error_env "q0" "s0" []).1 = some answer_not_found :=
  ⟨rfl, rag_query_answer_despite_save_failure insert_error_env "q0" "s0" []
    "q0" [] answer_not_found rfl rfl rfl⟩

/-- Counterexample to C9 as stated: the initial history load fails (the
`SELECT` raises), yet the query is not recovered by returning "no answer" —
`rag_query` proceeds with an empty history and surfaces a normal
`ComplianceAnswer`. -/
theorem rag_query_load_failure_still_answers :
    load_error_env.loadFails "s1" = true ∧
    (rag_query load_error_env "q1" "s1" []).1 = some ⟨"ans", true, [], "high"⟩ :=
  ⟨rfl, rfl⟩

/-- C9 (amended): if the contextualize model call, the retriever (search +
rerank) call, or the structured generation call fails, `rag_query` returns
`none` ("no answer") for that query, and nothing else is surfaced; history
I/O failures are instead swallowed — a failed load proceeds with empty
history, a failed save still returns the answer. -/
theorem rag_query_service_failure_none (env : Env) (q sid : String) (db : List Row) :
    (∀ e, (contextualize_question q (load_history env db sid) env.llm).1 = Except.error e →
      (rag_query env q sid db).1 = none) ∧
    (∀ sq e, (contextualize_question q (load_history env db sid) env.llm).1 = Except.ok sq →
      env.retrieve sq = Except.error e → (rag_query env q sid db).1 = none) ∧
    (∀ sq docs e,
      (contextualize_question q (load_history env db sid) env.llm).1 = Except.ok sq →
      env.retrieve sq = Except.ok docs →
      env.structured (Message.mk Role.system SYSTEM_PROMPT ::
        (load_history env db sid ++
         [Message.mk Role.human ("Context:\n" ++ format_context docs ++ "\n\nQuestion: " ++ q)]))
        = Except.error e →
      (rag_query env q sid db).1 = none) := by
  refine ⟨fun e hc => ?_, fun sq e hc hr => ?_, fun sq docs e hc hr hs => ?_⟩
  · simp only [rag_query, hc]
  · simp only [rag_query, hc, hr]
  · simp only [rag_query, hc, hr, hs]

/-- Witness for (amended) C9: a failing structured generation call on a
concrete query yields `none`. -/
theorem rag_query_service_failure_none_witness :
    (rag_query generation_error_env "q0" "s0" []).1 = none :=
  (rag_query_service_failure_none generation_error_env "q0" "s0" []).2.2
    "q0" [] "schema validation failure" rfl rfl rfl

end ComplianceRag
